/-
  Verification of the PLY-Converter pipeline (app.py, ply_converter.py).

  Shallow embedding conventions:
  * Machine floats are modelled by exact rationals (ℚ).  Where the source
    divides a vector by a strictly positive scalar (a norm plus 1e-8) only to
    test the *sign* of a dot product, the embedding tests the sign of the
    unnormalized dot product, which is the same predicate.
  * External library calls (trimesh / open3d cleanup, convex hull, export,
    the file system) are parameters of the embedded functions: a `Bool`- or
    `Option`-valued function standing for "the call succeeded and returned
    this value".
  * Fallible code is `Except String` / `Option` valued.
-/
import Mathlib

namespace PLYConv

/-! ## Data model -/

/-- A 3-D point / vector with exact rational coordinates. -/
structure Vec3 where
  x : ℚ
  y : ℚ
  z : ℚ
deriving DecidableEq, Repr

def Vec3.add (a b : Vec3) : Vec3 := ⟨a.x + b.x, a.y + b.y, a.z + b.z⟩

def Vec3.sub (a b : Vec3) : Vec3 := ⟨a.x - b.x, a.y - b.y, a.z - b.z⟩

def Vec3.smul (q : ℚ) (a : Vec3) : Vec3 := ⟨q * a.x, q * a.y, q * a.z⟩

def Vec3.dot (a b : Vec3) : ℚ := a.x * b.x + a.y * b.y + a.z * b.z

/-- Cross product; `cross (b - a) (c - a)` is the (unnormalized) direction of
a triangle's face normal as computed by the geometry library. -/
def Vec3.cross (a b : Vec3) : Vec3 :=
  ⟨a.y * b.z - a.z * b.y, a.z * b.x - a.x * b.z, a.x * b.y - a.y * b.x⟩

def Vec3.zero : Vec3 := ⟨0, 0, 0⟩

/-- A triangular face: three indices into the vertex list
(`faces[i] = [a, b, c]` in the source). -/
abbrev Face := Nat × Nat × Nat

/-- An RGBA vertex color as stored by the library (`0–255` channels). -/
abbrev Color := Nat × Nat × Nat × Nat

/-- A triangle mesh: vertex positions, triangular faces, optional per-vertex
colors (`mesh.visual.vertex_colors`). -/
structure Mesh where
  vertices : List Vec3
  faces : List Face
  colors : Option (List Color)
deriving DecidableEq, Repr

/-! ## Density filtering (precise_poisson_reconstruction, ply_converter.py
    lines 205–222) -/

/-- `np.mean(densities)`. -/
def meanD (ds : List ℚ) : ℚ := ds.sum / ds.length

/-- Population variance, `np.std(densities) ** 2` (`ddof = 0`). -/
def varD (ds : List ℚ) : ℚ :=
  ((ds.map (fun d => (d - meanD ds) ^ 2)).sum) / ds.length

/-- `np.min(densities)` (the source guards `len(densities) > 0`). -/
def minD : List ℚ → ℚ
  | [] => 0
  | d :: ds => ds.foldl min d

/-- `thresh = max(mean_density - 2 * std_density, np.min(densities) * 1.1)`
(line 214).  `std` is passed explicitly; the caller characterizes it as the
nonnegative square root of the variance. -/
def densityThresh (mean std minDensity : ℚ) : ℚ :=
  max (mean - 2 * std) (minDensity * (11 / 10))

/-- `vertices_to_remove = densities < thresh` (line 216): the removal mask,
one `Bool` per vertex, `true` when the vertex's density is strictly below
the threshold. -/
def verticesToRemove (ds : List ℚ) (thresh : ℚ) : List Bool :=
  ds.map (fun d => decide (d < thresh))

/-! ## Upload parameter validation (app.py upload_file, lines 92–104) -/

def OUTPUT_FORMATS : List String := ["stl", "obj", "glb", "3mf", "dxf"]

def SMOOTHING_LEVELS : List String := ["light", "medium", "high", "ultra"]

/-- Outcome of the upload route's parameter validation: either a 400
rejection before any job exists, or a background job started with the
validated formats and smoothing level. -/
inductive UploadOutcome where
  | rejected (msg : String)
  | started (formats : List String) (smoothing : String)
deriving DecidableEq, Repr

/-- app.py lines 92–104 (run after the file itself was accepted and saved):
an empty `formats` list defaults to `["stl"]`, an unknown smoothing level
defaults to `"medium"`, formats outside `OUTPUT_FORMATS` are dropped, and
the request is rejected iff no valid format remains. -/
def processUploadParams (requestedFormats : List String) (smoothing : String) :
    UploadOutcome :=
  let output_formats := if requestedFormats.isEmpty then ["stl"] else requestedFormats
  let smoothing_level :=
    if SMOOTHING_LEVELS.contains smoothing then smoothing else "medium"
  let valid_formats := output_formats.filter (fun f => OUTPUT_FORMATS.contains f)
  if valid_formats.isEmpty then UploadOutcome.rejected "Invalid output formats specified"
  else UploadOutcome.started valid_formats smoothing_level

/-! ## Orientation fixer (fix_face_orientation_and_normals,
    ply_converter.py lines 59–147) -/

/-- `vertices[i]` (faces always index in range in the source; out-of-range
reads default to the origin here). -/
def Mesh.vert (m : Mesh) (i : Nat) : Vec3 := m.vertices.getD i Vec3.zero

/-- `center = vertices.mean(axis=0)` (line 91). -/
def Mesh.center (m : Mesh) : Vec3 :=
  Vec3.smul (1 / (m.vertices.length : ℚ)) (m.vertices.foldr Vec3.add Vec3.zero)

/-- `face_centers = vertices[faces].mean(axis=1)` for one face (line 94). -/
def faceCenter (m : Mesh) (f : Face) : Vec3 :=
  Vec3.smul (1 / 3)
    (Vec3.add (m.vert f.1) (Vec3.add (m.vert f.2.1) (m.vert f.2.2)))

/-- The library's face normal direction: the cross product of the triangle's
edge vectors.  The library normalizes it, and the source normalizes
`center_to_face` by its norm plus `1e-8` (line 96); both divisors are
positive, so the sign test `dot_products > 0` (line 100) is unchanged by
dropping them. -/
def faceNormalDir (m : Mesh) (f : Face) : Vec3 :=
  Vec3.cross (Vec3.sub (m.vert f.2.1) (m.vert f.1))
    (Vec3.sub (m.vert f.2.2) (m.vert f.1))

/-- A face is counted outward when its normal has positive dot product with
the vector from the mesh center to the face center (lines 99–100). -/
def isOutward (m : Mesh) (f : Face) : Bool :=
  decide (0 < Vec3.dot (faceNormalDir m f) (Vec3.sub (faceCenter m f) (m.center)))

/-- `outward_faces = np.sum(dot_products > 0)` (line 100). -/
def outwardFaces (m : Mesh) : Nat := (m.faces.filter (isOutward m)).length

/-- `outward_ratio = outward_faces / total_faces if total_faces > 0 else 0`
(line 103). -/
def outwardFraction (m : Mesh) : ℚ :=
  if m.faces.length > 0 then (outwardFaces m : ℚ) / (m.faces.length : ℚ) else 0

/-- `flipped_faces = faces[:, [0, 2, 1]]`: reverse the winding of one face
(line 111). -/
def flipFace (f : Face) : Face := (f.1, f.2.2, f.2.1)

/-- The double-sided mesh before cleanup (lines 111–121): the original faces
followed by their winding-reversed copies, same vertices, vertex colors
transferred when present. -/
def doubleSided (m : Mesh) : Mesh :=
  { m with faces := m.faces ++ m.faces.map flipFace }

/-- Steps 3–4 of `fix_face_orientation_and_normals` (lines 81–143), on the
mesh state after the library's `fix_normals` / `unify_normals` calls.
`cleanup` stands for the library's
`remove_degenerate_faces; remove_duplicate_faces; remove_unreferenced_vertices`
sequence, which both branches run.  Returns the resulting mesh and whether
a double-sided mesh was created. -/
def orientationDecision (cleanup : Mesh → Mesh) (m : Mesh) : Mesh × Bool :=
  if m.faces.length > 0 then
    if outwardFraction m < 3 / 5 then (cleanup (doubleSided m), true)
    else (cleanup m, false)
  else (cleanup m, false)

/-! ## Export loop and output verification (PLYConverter.convert_ply,
    ply_converter.py lines 466–492; convert_file_async_debug, app.py
    lines 220–237) -/

/-- `filename = f"{conversion_id}_smooth.{fmt}"` (line 475). -/
def exportPath (conversionId fmt : String) : String :=
  conversionId ++ "_smooth." ++ fmt

/-- The export loop (lines 470–486): each requested format is attempted in
turn; `exportOk` stands for `mesh.export` succeeding for that format.  A
failing format is logged and skipped (`continue`), the loop moves on to the
remaining formats, and only successful formats enter `results`. -/
def exportLoop (exportOk : String → Bool) (conversionId : String)
    (formats : List String) : List (String × String) :=
  formats.filterMap fun fmt =>
    if exportOk fmt then some (fmt, exportPath conversionId fmt) else none

/-- Lines 488–492: `if not results: raise RuntimeError(...)`, otherwise the
format → path map is returned. -/
def convertExportStage (exportOk : String → Bool) (conversionId : String)
    (formats : List String) : Except String (List (String × String)) :=
  if (exportLoop exportOk conversionId formats).isEmpty then
    Except.error "No files were successfully exported"
  else Except.ok (exportLoop exportOk conversionId formats)

/-- app.py lines 220–231: each returned path is checked with
`os.path.exists` (`fileExists`); only verified files are kept, and the job
fails if none remain. -/
def verifyOutputs (fileExists : String → Bool)
    (results : List (String × String)) : Except String (List (String × String)) :=
  if (results.filter fun fp => fileExists fp.2).isEmpty then
    Except.error "No output files were created successfully"
  else Except.ok (results.filter fun fp => fileExists fp.2)

/-- The job's export outcome end to end: the converter's export stage
followed by the app's file verification. -/
def jobExportOutcome (exportOk fileExists : String → Bool)
    (conversionId : String) (formats : List String) :
    Except String (List (String × String)) :=
  (convertExportStage exportOk conversionId formats).bind (verifyOutputs fileExists)

/-! ## Smoothing (smooth_mesh_basic, lines 369–393; call site lines 449–451)
    and the smoothing-level tables (lines 187–193, 231–233, 372–379) -/

/-- `iterations_map` of `smooth_mesh_basic` (lines 372–377). -/
def iterations_map : List (String × Nat) :=
  [("light", 1), ("medium", 2), ("high", 3), ("ultra", 5)]

/-- `iterations = iterations_map.get(smoothing_level, 2)` (line 379). -/
def smoothIterations (level : String) : Nat :=
  (iterations_map.lookup level).getD 2

/-- `depth_map` of `precise_poisson_reconstruction` (lines 187–192). -/
def depth_map : List (String × Nat) :=
  [("light", 8), ("medium", 9), ("high", 10), ("ultra", 11)]

/-- `depth = depth_map.get(smoothing_level, 9)` (line 193). -/
def poissonDepth (level : String) : Nat :=
  (depth_map.lookup level).getD 9

/-- `smoothing_iterations` of the reconstruction's extra Laplacian pass
(line 232). -/
def smoothing_iterations : List (String × Nat) := [("high", 1), ("ultra", 2)]

/-- Lines 231–233: the extra Laplacian smoothing runs only for levels in
`['high', 'ultra']`, with `smoothing_iterations.get(smoothing_level, 1)`
iterations; all other levels get none. -/
def poissonExtraIterations (level : String) : Nat :=
  if level = "high" ∨ level = "ultra" then
    (smoothing_iterations.lookup level).getD 1
  else 0

/-- `smooth_mesh_basic` (lines 369–393): `hasSmoothed` stands for
`hasattr(mesh, 'smoothed')` (constant across the loop for a given library
version), `smoothed` for one pass of the library's smoothing transform.
With the capability present the pass is applied `smoothIterations level`
times; without it the loop breaks immediately and the input mesh is
returned unchanged. -/
def smooth_mesh_basic (hasSmoothed : Bool) (smoothed : Mesh → Mesh)
    (m : Mesh) (level : String) : Mesh :=
  if hasSmoothed then smoothed^[smoothIterations level] m else m

/-- convert_ply lines 449–451: basic smoothing runs only on the
original-mesh path (`if not is_point_cloud`), never on reconstructed
point-cloud surfaces. -/
def smoothingStage (isPointCloud : Bool) (hasSmoothed : Bool)
    (smoothed : Mesh → Mesh) (m : Mesh) (level : String) : Mesh :=
  if isPointCloud then m else smooth_mesh_basic hasSmoothed smoothed m level

/-! ## Point-cloud reconstruction chain (precise_poisson_reconstruction
    lines 239–257, create_mesh_from_points_basic lines 264–299, call site
    lines 421–431) -/

/-- A mesh has at least one vertex and at least one face. -/
def Mesh.nonempty (m : Mesh) : Prop := m.vertices ≠ [] ∧ m.faces ≠ []

instance (m : Mesh) : Decidable m.nonempty := by
  unfold Mesh.nonempty; infer_instance

/-- Lines 239–257 of `precise_poisson_reconstruction`: `raw` is the
candidate mesh produced by the library's Poisson pipeline (`none` when the
library is absent or any step raised).  The source returns a mesh only when
`len(vertices_np) > 0 and len(faces_np) > 0`, else `None`. -/
def poissonResult (raw : Option Mesh) : Option Mesh :=
  match raw with
  | some m => if m.vertices.length > 0 ∧ m.faces.length > 0 then some m else none
  | none => none

/-- The placeholder of `create_mesh_from_points_basic`'s ultimate fallback,
`trimesh.creation.box(extents=[1, 1, 1])` (line 299): the library's unit
cube, 8 corner vertices at `±1/2` and 12 triangular faces. -/
def unitBox : Mesh :=
  { vertices :=
      [⟨-1/2, -1/2, -1/2⟩, ⟨-1/2, -1/2, 1/2⟩, ⟨-1/2, 1/2, -1/2⟩, ⟨-1/2, 1/2, 1/2⟩,
       ⟨1/2, -1/2, -1/2⟩, ⟨1/2, -1/2, 1/2⟩, ⟨1/2, 1/2, -1/2⟩, ⟨1/2, 1/2, 1/2⟩]
    faces :=
      [(0, 1, 3), (0, 3, 2), (4, 6, 7), (4, 7, 5),
       (0, 4, 5), (0, 5, 1), (2, 3, 7), (2, 7, 6),
       (0, 2, 6), (0, 6, 4), (1, 5, 7), (1, 7, 3)]
    colors := none }

/-- `create_mesh_from_points_basic` (lines 264–299): `hull` stands for the
library's convex-hull construction plus the color-mapping block (`none`
when any of it raised); on failure the unit-cube placeholder is returned. -/
def create_mesh_from_points_basic (hull : List Vec3 → Option Mesh)
    (points : List Vec3) : Mesh :=
  match hull points with
  | some h => h
  | none => unitBox

/-- convert_ply lines 421–431: Poisson reconstruction first, the basic
(convex-hull / placeholder) reconstruction when it returns `None`. -/
def reconstructionStage (raw : Option Mesh) (hull : List Vec3 → Option Mesh)
    (points : List Vec3) : Mesh :=
  match poissonResult raw with
  | some m => m
  | none => create_mesh_from_points_basic hull points

/-! ## Progress callbacks (convert_ply lines 404–499,
    convert_file_async_debug lines 147–258) -/

/-- The percentage passed to the progress callback for the `i`-th format of
`n` (line 472): `80 + int((i + 1) / n * 15)`, modelled with exact integer
floor division (the float expression rounds the same way except on
representation-error ties, which stay within the same 80–95 band and do
not affect monotonicity). -/
def exportProgress (n i : Nat) : Nat := 80 + ((i + 1) * 15) / n

/-- The percentages passed to the progress callback by a *successful*
`convert_ply` run, in call order (lines 410–491): load (5, 15), the
reconstruction branch (point cloud: 25 then 45 on Poisson success or 35 on
fallback; mesh: 25 then 40), orientation / smoothing / cleanup / export
milestones (55, 65, 75, 80), one update per requested format, and the
final 100. -/
def convertTrace (isPointCloud poissonOk : Bool) (nFormats : Nat) : List Nat :=
  ((if isPointCloud then (if poissonOk then [5, 15, 25, 45] else [5, 15, 25, 35])
     else [5, 15, 25, 40]) ++
    ([55, 65, 75, 80] ++
      (List.range nFormats).map (exportProgress nFormats))) ++ [100]

/-- The percentages recorded for a successful job end to end: the wrapper
`convert_file_async_debug` reports 5, 10, 15 and 20 (lines 165–200) before
`convert_ply` runs with the same callback. -/
def jobSuccessTrace (isPointCloud poissonOk : Bool) (nFormats : Nat) : List Nat :=
  [5, 10, 15, 20] ++ convertTrace isPointCloud poissonOk nFormats

/-- convert_ply lines 494–498: on any exception the error handler calls
`update_progress(error_msg, 0)` — the final callback of a failed run
carries percentage `0`. -/
def errorCallback (errMsg : String) : String × Nat :=
  ("Conversion failed: " ++ errMsg, 0)

/-! ## Exception safety of the orientation fixer
    (fix_face_orientation_and_normals, lines 59–147) -/

/-- The full `fix_face_orientation_and_normals` with its exception
structure made explicit.  `fixN` / `unifyN` are the library's
`fix_normals` / `unify_normals` (steps 1–2, each in its own `try`: a
failure is logged and the mesh state is kept).  `orient` is the step-3
block: `Except.ok (some d)` means the double-sided mesh `d` was built,
cleaned and returned from inside the `try`; `Except.ok none` means the
outward ratio was good so control falls through; `Except.error` means the
block raised and was caught.  `cleanup` is the step-4 cleanup, whose
failure is caught by the outer handler, which returns the mesh in its
current state (line 147).  `bestEffort` is the shared "run a library step,
keep the previous state if it raises" pattern of steps 1–2. -/
def bestEffort (step : Mesh → Except String Mesh) (m : Mesh) : Mesh :=
  match step m with
  | Except.ok x => x
  | Except.error _ => m

def fixFaceOrientationSafe (fixN unifyN : Mesh → Except String Mesh)
    (orient : Mesh → Except String (Option Mesh))
    (cleanup : Mesh → Except String Mesh) (m0 : Mesh) : Mesh :=
  match orient (bestEffort unifyN (bestEffort fixN m0)) with
  | Except.ok (some doubled) => doubled
  | _ =>
    match cleanup (bestEffort unifyN (bestEffort fixN m0)) with
    | Except.ok m3 => m3
    | Except.error _ => bestEffort unifyN (bestEffort fixN m0)

/-! ## Theorems -/

/-- C1, counterexample: for the densities `[10, 10.1]` the variance is
positive (the standard deviation is `1/20`), yet the threshold
`max(mean − 2·std, min · 1.1) = 11` is *greater* than the mean `10.05`:
the claimed bound "threshold ≤ mean density" fails. -/
theorem C1_counterexample :
    0 < varD [10, 101/10] ∧ (0 : ℚ) ≤ 1/20 ∧
    ((1 : ℚ)/20) ^ 2 = varD [10, 101/10] ∧
    ¬ densityThresh (meanD [10, 101/10]) (1/20) (minD [10, 101/10]) ≤
        meanD [10, 101/10] := by
  have h1 : meanD [10, 101/10] = 201/20 := by norm_num [meanD]
  have h2 : varD [10, 101/10] = 1/400 := by norm_num [varD, meanD]
  have h3 : minD [10, 101/10] = 10 := by norm_num [minD]
  refine ⟨by rw [h2]; norm_num, by norm_num, by rw [h2]; norm_num, ?_⟩
  rw [h1, h3]
  unfold densityThresh
  norm_num [max_le_iff]

/-- C1, amended: the threshold `max(mean − 2·std, min · 1.1)` is always at
least `min · 1.1`; it is at most the mean *provided* `min · 1.1 ≤ mean`
(which the original claim omitted); and the removal mask marks exactly the
vertices whose density is strictly below the threshold. -/
theorem C1_density_threshold (ds : List ℚ) (s : ℚ)
    (hvar : 0 < varD ds) (hs0 : 0 ≤ s) (hs : s ^ 2 = varD ds) :
    minD ds * (11/10) ≤ densityThresh (meanD ds) s (minD ds) ∧
    (minD ds * (11/10) ≤ meanD ds →
      densityThresh (meanD ds) s (minD ds) ≤ meanD ds) ∧
    ∀ i, i < ds.length →
      ((verticesToRemove ds (densityThresh (meanD ds) s (minD ds))).getD i false
          = true ↔
        ds.getD i 0 < densityThresh (meanD ds) s (minD ds)) := by
  refine ⟨le_max_right _ _, fun hmin => max_le (by linarith) hmin, ?_⟩
  intro i hi
  simp only [verticesToRemove, List.getD_eq_getElem?_getD, List.getElem?_map,
    List.getElem?_eq_getElem hi, Option.map_some', Option.getD_some,
    decide_eq_true_eq]

/-- C1, witness: for densities `[0, 2]` (variance `1`, std `1`,
`min · 1.1 = 0 ≤ mean = 1`) the amended bounds hold and the mask test
evaluates at index `0`. -/
theorem C1_density_threshold_witness :
    minD [0, 2] * (11/10) ≤ densityThresh (meanD [0, 2]) 1 (minD [0, 2]) ∧
    densityThresh (meanD [0, 2]) 1 (minD [0, 2]) ≤ meanD [0, 2] ∧
    ((verticesToRemove [0, 2]
        (densityThresh (meanD [0, 2]) 1 (minD [0, 2]))).getD 0 false = true ↔
      ([0, 2] : List ℚ).getD 0 0 <
        densityThresh (meanD [0, 2]) 1 (minD [0, 2])) :=
  have h := C1_density_threshold [0, 2] 1 (by norm_num [varD, meanD])
    (by norm_num) (by norm_num [varD, meanD])
  ⟨h.1, h.2.1 (by norm_num [minD, meanD]), h.2.2 0 (by norm_num)⟩

/-- C2, counterexample: a request with an *empty* formats list is not
rejected — app.py line 93 defaults it to `["stl"]` and the job is
started. -/
theorem C2_counterexample :
    processUploadParams [] "medium" = UploadOutcome.started ["stl"] "medium" ∧
    ¬ ∃ msg, processUploadParams [] "medium" = UploadOutcome.rejected msg := by
  refine ⟨by decide, ?_⟩
  rintro ⟨msg, h⟩
  rw [show processUploadParams [] "medium" =
      UploadOutcome.started ["stl"] "medium" by decide] at h
  exact UploadOutcome.noConfusion h

/-- C2, amended: an empty requested-formats list is defaulted to `["stl"]`
and a job is started; a request is rejected before processing begins
exactly when its formats list is non-empty but contains no valid format. -/
theorem C2_empty_formats_default (fmts : List String) (sm : String) :
    (fmts = [] → processUploadParams fmts sm =
      UploadOutcome.started ["stl"]
        (if SMOOTHING_LEVELS.contains sm then sm else "medium")) ∧
    ((∃ msg, processUploadParams fmts sm = UploadOutcome.rejected msg) ↔
      (fmts ≠ [] ∧ fmts.filter (fun f => OUTPUT_FORMATS.contains f) = [])) := by
  constructor
  · rintro rfl
    simp [processUploadParams, OUTPUT_FORMATS]
  · by_cases hf : fmts = []
    · subst hf
      constructor
      · rintro ⟨msg, h⟩
        simp [processUploadParams, OUTPUT_FORMATS] at h
      · rintro ⟨hne, _⟩
        exact absurd rfl hne
    · have hne : fmts.isEmpty = false := by
        simpa [List.isEmpty_iff] using hf
      unfold processUploadParams
      rw [hne]
      simp only [Bool.false_eq_true, if_false]
      by_cases hv : fmts.filter (fun f => OUTPUT_FORMATS.contains f) = []
      · rw [hv]
        simp [hf]
      · have : (fmts.filter (fun f => OUTPUT_FORMATS.contains f)).isEmpty = false := by
          simpa [List.isEmpty_iff] using hv
        rw [this]
        simp only [Bool.false_eq_true, if_false]
        constructor
        · rintro ⟨msg, h⟩
          exact UploadOutcome.noConfusion h
        · rintro ⟨_, hnil⟩
          exact absurd hnil hv

/-- C2, witness: discharging the empty-list hypothesis of the amended
theorem at the concrete request (`[]`, `"medium"`). -/
theorem C2_empty_formats_default_witness :
    processUploadParams [] "medium" =
      UploadOutcome.started ["stl"]
        (if SMOOTHING_LEVELS.contains "medium" then "medium" else "medium") :=
  (C2_empty_formats_default [] "medium").1 rfl

/-- A one-triangle mesh used to instantiate the orientation theorems: its
face center coincides with the mesh center, so its dot product is `0`, the
face is not outward, and the outward ratio is `0 < 0.6`. -/
def sampleTriangle : Mesh :=
  { vertices := [⟨0, 0, 0⟩, ⟨1, 0, 0⟩, ⟨0, 1, 0⟩]
    faces := [(0, 1, 2)]
    colors := some [(255, 0, 0, 255)] }

/-- C3: the orientation-fixing decision is a function of the outward ratio
alone — for any mesh with at least one face and any library cleanup, a
ratio strictly below `0.6` yields the cleaned double-sided mesh, and a
ratio of at least `0.6` yields the cleaned original with no face
doubling. -/
theorem C3_orientation_decision (cleanup : Mesh → Mesh) (m : Mesh)
    (hf : m.faces ≠ []) :
    (outwardFraction m < 3/5 →
      orientationDecision cleanup m = (cleanup (doubleSided m), true)) ∧
    (3/5 ≤ outwardFraction m →
      orientationDecision cleanup m = (cleanup m, false)) := by
  have hl : m.faces.length > 0 := List.length_pos.mpr hf
  unfold orientationDecision
  rw [if_pos hl]
  constructor
  · intro h
    rw [if_pos h]
  · intro h
    rw [if_neg (not_lt.mpr h)]

/-- C3, witness: the sample triangle has outward ratio `0 < 3/5`, so the
decision (with the identity as cleanup) doubles it. -/
theorem C3_orientation_decision_witness :
    orientationDecision id sampleTriangle = (id (doubleSided sampleTriangle), true) :=
  (C3_orientation_decision id sampleTriangle (by decide)).1 (by
    have : outwardFraction sampleTriangle = 0 := by
      norm_num [outwardFraction, outwardFaces, sampleTriangle, isOutward,
        faceNormalDir, faceCenter, Mesh.center, Mesh.vert, Vec3.dot, Vec3.sub,
        Vec3.add, Vec3.smul, Vec3.cross, Vec3.zero, List.filter]
    rw [this]
    norm_num)

/-- C4: double-siding yields exactly `2·|F|` faces — the original faces
unmodified in their original positions, followed by their winding-reversed
twins in the same order — and leaves the vertex list and the optional
vertex colors untouched. -/
theorem C4_double_siding (m : Mesh) :
    (doubleSided m).faces.length = 2 * m.faces.length ∧
    (doubleSided m).vertices = m.vertices ∧
    (doubleSided m).colors = m.colors ∧
    ∀ i, i < m.faces.length →
      (doubleSided m).faces.getD i (0, 0, 0) = m.faces.getD i (0, 0, 0) ∧
      (doubleSided m).faces.getD (m.faces.length + i) (0, 0, 0) =
        flipFace (m.faces.getD i (0, 0, 0)) := by
  refine ⟨by simp [doubleSided, two_mul], rfl, rfl, ?_⟩
  intro i hi
  constructor
  · exact List.getD_append _ _ _ _ hi
  · show (m.faces ++ m.faces.map flipFace).getD (m.faces.length + i) (0, 0, 0) = _
    rw [List.getD_append_right _ _ _ _ (by omega)]
    have : m.faces.length + i - m.faces.length = i := by omega
    rw [this]
    simp only [List.getD_eq_getElem?_getD, List.getElem?_map,
      List.getElem?_eq_getElem hi, Option.map_some', Option.getD_some]

/-- C4, witness: evaluating the double-siding equations on the sample
triangle at index `0`. -/
theorem C4_double_siding_witness :
    (doubleSided sampleTriangle).faces.length = 2 * sampleTriangle.faces.length ∧
    (doubleSided sampleTriangle).faces.getD 0 (0, 0, 0) =
      sampleTriangle.faces.getD 0 (0, 0, 0) ∧
    (doubleSided sampleTriangle).faces.getD (sampleTriangle.faces.length + 0) (0, 0, 0) =
      flipFace (sampleTriangle.faces.getD 0 (0, 0, 0)) :=
  have h := C4_double_siding sampleTriangle
  ⟨h.1, (h.2.2.2 0 (by decide)).1, (h.2.2.2 0 (by decide)).2⟩

/-- C5: (1) the export loop is per-format independent — a format is in the
returned map iff it was requested and its own export succeeded, regardless
of other formats failing; (2) the converter raises exactly when zero
formats export successfully; (3) every entry of the final (app-verified)
map points to an existing file; (4) the job as a whole fails exactly when
no requested format both exported and produced an existing file. -/
theorem C5_export_error_handling (exportOk fileExists : String → Bool)
    (cid : String) (formats : List String) :
    (∀ rs, convertExportStage exportOk cid formats = Except.ok rs →
      ∀ fmt, ((fmt, exportPath cid fmt) ∈ rs ↔
        fmt ∈ formats ∧ exportOk fmt = true)) ∧
    ((∃ e, convertExportStage exportOk cid formats = Except.error e) ↔
      ∀ fmt ∈ formats, exportOk fmt = false) ∧
    (∀ vs, jobExportOutcome exportOk fileExists cid formats = Except.ok vs →
      ∀ fp ∈ vs, fileExists fp.2 = true) ∧
    ((∃ e, jobExportOutcome exportOk fileExists cid formats = Except.error e) ↔
      ∀ fmt ∈ formats,
        ¬(exportOk fmt = true ∧ fileExists (exportPath cid fmt) = true)) := by
  have hmem : ∀ fmt, ((fmt, exportPath cid fmt) ∈ exportLoop exportOk cid formats ↔
      fmt ∈ formats ∧ exportOk fmt = true) := by
    intro fmt
    unfold exportLoop
    rw [List.mem_filterMap]
    constructor
    · rintro ⟨a, ha, hfa⟩
      by_cases h : exportOk a = true
      · rw [if_pos h] at hfa
        obtain ⟨rfl, -⟩ := Prod.mk.injEq .. ▸ Option.some.injEq .. ▸ hfa
        exact ⟨ha, h⟩
      · rw [if_neg h] at hfa
        exact absurd hfa (Option.noConfusion ·)
    · rintro ⟨hmem, hok⟩
      exact ⟨fmt, hmem, by rw [if_pos hok]⟩
  have hnil : (exportLoop exportOk cid formats = [] ↔
      ∀ fmt ∈ formats, exportOk fmt = false) := by
    unfold exportLoop
    rw [List.filterMap_eq_nil_iff]
    constructor
    · intro h fmt hf
      have := h fmt hf
      by_contra hok
      rw [if_pos (by simpa using hok)] at this
      exact Option.noConfusion this
    · intro h fmt hf
      rw [if_neg (by simp [h fmt hf])]
  refine ⟨?_, ?_, ?_, ?_⟩
  · intro rs hrs fmt
    unfold convertExportStage at hrs
    split at hrs
    · exact absurd hrs (Except.noConfusion ·)
    · obtain rfl := (Except.ok.injEq .. ▸ hrs)
      exact hmem fmt
  · unfold convertExportStage
    constructor
    · rintro ⟨e, he⟩
      split at he
      · next hemp => exact hnil.mp (by simpa [List.isEmpty_iff] using hemp)
      · exact absurd he (Except.noConfusion ·)
    · intro h
      rw [if_pos (by simpa [List.isEmpty_iff] using hnil.mpr h)]
      exact ⟨_, rfl⟩
  · intro vs hvs fp hfp
    unfold jobExportOutcome convertExportStage at hvs
    split at hvs
    · exact absurd hvs (Except.noConfusion ·)
    · unfold verifyOutputs at hvs
      simp only [Except.bind] at hvs
      split at hvs
      · exact absurd hvs (Except.noConfusion ·)
      · obtain rfl := (Except.ok.injEq .. ▸ hvs)
        exact (List.mem_filter.mp hfp).2
  · unfold jobExportOutcome convertExportStage
    by_cases hemp : exportLoop exportOk cid formats = []
    · rw [if_pos (by simpa [List.isEmpty_iff] using hemp)]
      simp only [Except.bind]
      constructor
      · intro _ fmt hf
        rw [hnil.mp hemp fmt hf]
        simp
      · intro _
        exact ⟨_, rfl⟩
    · rw [if_neg (by simpa [List.isEmpty_iff] using hemp)]
      simp only [Except.bind]
      unfold verifyOutputs
      by_cases hver : (exportLoop exportOk cid formats).filter
          (fun fp => fileExists fp.2) = []
      · rw [if_pos (by simpa [List.isEmpty_iff] using hver)]
        constructor
        · intro _ fmt hf
          rintro ⟨hok, hex⟩
          have hin : (fmt, exportPath cid fmt) ∈ exportLoop exportOk cid formats :=
            (hmem fmt).mpr ⟨hf, hok⟩
          have := List.filter_eq_nil_iff.mp hver _ hin
          simp [hex] at this
        · intro _
          exact ⟨_, rfl⟩
      · rw [if_neg (by simpa [List.isEmpty_iff] using hver)]
        constructor
        · rintro ⟨e, he⟩
          exact absurd he (Except.noConfusion ·)
        · intro h
          exfalso
          obtain ⟨fp, hfp⟩ := List.exists_mem_of_ne_nil _ hver
          have hfl := List.mem_filter.mp hfp
          obtain ⟨a, ha, hfa⟩ := List.mem_filterMap.mp hfl.1
          by_cases hok : exportOk a = true
          · rw [if_pos hok] at hfa
            obtain rfl := (Option.some.injEq .. ▸ hfa)
            exact h a ha ⟨hok, hfl.2⟩
          · rw [if_neg hok] at hfa
            exact Option.noConfusion hfa

/-- C5, witness: the spec scenario `formats = [stl, badfmt]` with `stl`
exporting fine and every written file present — the job succeeds, the map
holds exactly the `stl` entry, and it points to an existing file. -/
theorem C5_export_error_handling_witness :
    ((("stl" : String), exportPath "job" "stl") ∈
        exportLoop (fun f => f == "stl") "job" ["stl", "badfmt"] ↔
      ("stl" : String) ∈ (["stl", "badfmt"] : List String) ∧
        ((fun (f : String) => f == "stl") "stl") = true) ∧
    ¬ ∃ e, convertExportStage (fun f => f == "stl") "job" ["stl", "badfmt"] =
        Except.error e := by
  have h := C5_export_error_handling (fun f => f == "stl") (fun _ => true)
    "job" ["stl", "badfmt"]
  constructor
  · have h1 := h.1 (exportLoop (fun f => f == "stl") "job" ["stl", "badfmt"])
      (by rw [show convertExportStage (fun f => f == "stl") "job" ["stl", "badfmt"] =
          Except.ok (exportLoop (fun f => f == "stl") "job" ["stl", "badfmt"]) by rfl])
    exact h1 "stl"
  · intro he
    have := h.2.1.mp he "stl" (by decide)
    simp at this

/-- C6, counterexample: on a successful original-mesh job with one
requested format, the job-lifetime callback sequence is
`[5, 10, 15, 20, 5, 15, 25, 40, 55, 65, 75, 80, 95, 100]` — the wrapper's
`20` is followed by `convert_ply`'s restart at `5`, so the sequence is not
monotonically non-decreasing. -/
theorem C6_counterexample :
    ¬ List.Chain' (fun a b => a ≤ b) (jobSuccessTrace false true 1) := by
  intro h
  have he : jobSuccessTrace false true 1 =
      [5, 10, 15, 20, 5, 15, 25, 40, 55, 65, 75, 80, 95, 100] := rfl
  rw [he] at h
  norm_num [List.chain'_cons] at h

/-- C6, amended: within a single successful `convert_ply` run the progress
callbacks are monotonically non-decreasing and the final callback is 100;
but the surrounding job wrapper emits its own 5/10/15/20 callbacks first,
so the job-lifetime sequence is not monotone; and on error `convert_ply`'s
final callback carries percentage 0 (not an unspecified percentage) while
the job status is set to failed. -/
theorem C6_progress_trace (isPC poissonOk : Bool) (n : Nat) (hn : 1 ≤ n) :
    List.Chain' (fun a b => a ≤ b) (convertTrace isPC poissonOk n) ∧
    (convertTrace isPC poissonOk n).getLast? = some 100 ∧
    ∀ msg, (errorCallback msg).2 = 0 := by
  obtain ⟨k, rfl⟩ : ∃ k, n = k + 1 := ⟨n - 1, by omega⟩
  have hmono : ∀ i j : ℕ, i ≤ j →
      exportProgress (k + 1) i ≤ exportProgress (k + 1) j := by
    intro i j hij
    unfold exportProgress
    have h15 : (i + 1) * 15 ≤ (j + 1) * 15 := Nat.mul_le_mul_right _ (by omega)
    exact Nat.add_le_add_left (Nat.div_le_div_right h15) _
  have hub' : ∀ i : ℕ, i < k + 1 → exportProgress (k + 1) i ≤ 100 := by
    intro i hi
    unfold exportProgress
    have h15 : (i + 1) * 15 ≤ (k + 1) * 15 := Nat.mul_le_mul_right _ (by omega)
    have hdiv : (i + 1) * 15 / (k + 1) ≤ 15 := by
      have h := Nat.div_le_div_right (c := k + 1) h15
      rwa [Nat.mul_div_cancel_left 15 (Nat.succ_pos k)] at h
    have h80 := Nat.add_le_add_left hdiv 80
    exact le_trans h80 (by norm_num)
  have hlb : ∀ i : ℕ, 80 ≤ exportProgress (k + 1) i := by
    intro i
    exact Nat.le_add_right 80 _
  have hM : List.Chain' (fun a b => a ≤ b)
      ((List.range (k + 1)).map (exportProgress (k + 1))) := by
    rw [List.chain'_map]
    exact (List.chain'_range_succ _ k).mpr fun m _ => hmono m (m + 1) (by omega)
  have hMemM : ∀ x ∈ (List.range (k + 1)).map (exportProgress (k + 1)),
      80 ≤ x ∧ x ≤ 100 := by
    intro x hx
    obtain ⟨i, hi, rfl⟩ := List.mem_map.mp hx
    exact ⟨hlb i, hub' i (List.mem_range.mp hi)⟩
  have hMne : (List.range (k + 1)).map (exportProgress (k + 1)) ≠ [] := by
    simp
  have hpre : List.Chain' (fun a b : ℕ => a ≤ b)
      ((if isPC then (if poissonOk then [5, 15, 25, 45] else [5, 15, 25, 35])
        else [5, 15, 25, 40]) ++
        ([55, 65, 75, 80] ++
          (List.range (k + 1)).map (exportProgress (k + 1)))) := by
    have htail : List.Chain' (fun a b : ℕ => a ≤ b)
        ([55, 65, 75, 80] ++
          (List.range (k + 1)).map (exportProgress (k + 1))) := by
      refine List.Chain'.append (by norm_num [List.chain'_cons]) hM ?_
      intro x hx y hy
      have hx80 : x = 80 := by
        have h80 : (([55, 65, 75, 80] : List ℕ).getLast?) = some 80 := by simp
        rw [h80] at hx
        exact (by simpa using hx : (80 : ℕ) = x).symm
      have hyM : y ∈ (List.range (k + 1)).map (exportProgress (k + 1)) :=
        List.mem_of_mem_head? hy
      have := (hMemM y hyM).1
      omega
    refine List.Chain'.append ?_ htail ?_
    · cases isPC <;> cases poissonOk <;> norm_num [List.chain'_cons]
    · intro x hx y hy
      have hy' : y = 55 := by
        have h55 : (([55, 65, 75, 80] : List ℕ) ++
            (List.range (k + 1)).map (exportProgress (k + 1))).head? = some 55 := rfl
        rw [h55] at hy
        exact (by simpa using hy : (55 : ℕ) = y).symm
      have hx' : x ≤ 45 := by
        cases isPC <;> cases poissonOk <;> simp at hx <;> omega
      omega
  refine ⟨?_, ?_, fun _ => rfl⟩
  · unfold convertTrace
    refine List.Chain'.append hpre (List.chain'_singleton _) ?_
    intro x hx y hy
    have hy100 : y = 100 := (by simpa using hy : (100 : ℕ) = y).symm
    subst hy100
    rw [List.getLast?_append_of_ne_nil _ (by simp), List.getLast?_append_of_ne_nil _ hMne] at hx
    exact (hMemM x (List.mem_of_mem_getLast? hx)).2
  · unfold convertTrace
    exact List.getLast?_concat _

/-- C6, witness: instantiating the amended theorem on an original-mesh
success with one format. -/
theorem C6_progress_trace_witness :
    List.Chain' (fun a b => a ≤ b) (convertTrace false true 1) ∧
    (convertTrace false true 1).getLast? = some 100 ∧
    ∀ msg, (errorCallback msg).2 = 0 :=
  C6_progress_trace false true 1 (by decide)

/-- C7: for any point cloud, the reconstruction stage — Poisson first,
convex-hull fallback, unit-cube placeholder last — returns a mesh with at
least one vertex and at least one face, provided the library's convex hull
(when it succeeds at all) is a nonempty mesh; it never fails past the
fallback chain. -/
theorem C7_reconstruction_nonempty (raw : Option Mesh)
    (hull : List Vec3 → Option Mesh) (points : List Vec3)
    (hpts : points ≠ [])
    (hhull : ∀ h, hull points = some h → h.nonempty) :
    (reconstructionStage raw hull points).nonempty := by
  have hbasic : (create_mesh_from_points_basic hull points).nonempty := by
    unfold create_mesh_from_points_basic
    cases hh : hull points with
    | some h => exact hhull h hh
    | none => exact ⟨List.cons_ne_nil _ _, List.cons_ne_nil _ _⟩
  unfold reconstructionStage
  cases raw with
  | none => exact hbasic
  | some m0 =>
    simp only [poissonResult]
    by_cases hpos : m0.vertices.length > 0 ∧ m0.faces.length > 0
    · rw [if_pos hpos]
      exact ⟨List.length_pos.mp hpos.1, List.length_pos.mp hpos.2⟩
    · rw [if_neg hpos]
      exact hbasic

/-- C7, witness: with no Poisson capability and a failing convex hull, a
single-point cloud still yields the nonempty placeholder cube. -/
theorem C7_reconstruction_nonempty_witness :
    (reconstructionStage none (fun _ => none) [⟨0, 0, 0⟩]).nonempty :=
  C7_reconstruction_nonempty none (fun _ => none) [⟨0, 0, 0⟩]
    (by decide) (fun h hc => Option.noConfusion hc)

/-- C8: basic smoothing runs only on the original-mesh path (point-cloud
reconstructions are returned as-is); its per-level iteration counts are
light = 1, medium = 2, high = 3, ultra = 5; with the capability present it
iterates the library's transform that many times, and without it the input
mesh is returned unchanged (no error). -/
theorem C8_smoothing_stage (isPC hasS : Bool) (sm : Mesh → Mesh) (m : Mesh)
    (level : String) :
    (isPC = true → smoothingStage isPC hasS sm m level = m) ∧
    (isPC = false →
      smoothingStage isPC hasS sm m level = smooth_mesh_basic hasS sm m level) ∧
    (hasS = false → smooth_mesh_basic hasS sm m level = m) ∧
    (hasS = true →
      smooth_mesh_basic hasS sm m level = sm^[smoothIterations level] m) ∧
    smoothIterations "light" = 1 ∧ smoothIterations "medium" = 2 ∧
    smoothIterations "high" = 3 ∧ smoothIterations "ultra" = 5 := by
  refine ⟨fun h => ?_, fun h => ?_, fun h => ?_, fun h => ?_, rfl, rfl, rfl, rfl⟩
  · subst h; rfl
  · subst h; rfl
  · subst h; rfl
  · subst h; rfl

/-- C8, witness: on the point-cloud path the sample triangle passes through
unsmoothed. -/
theorem C8_smoothing_stage_witness :
    smoothingStage true false (fun m => m) sampleTriangle "medium" =
      sampleTriangle :=
  (C8_smoothing_stage true false (fun m => m) sampleTriangle "medium").1 rfl

/-- C9: `fix_face_orientation_and_normals` is total over every outcome of
its fallible internal stages: if the step-3 block returns a double-sided
mesh it is the result; if step 3 falls through or raises and the step-4
cleanup succeeds, the cleaned mesh is the result; if the cleanup raises
too, the mesh in its current state is returned; in particular when every
stage raises the original input comes back, and no error propagates. -/
theorem C9_orientation_never_raises (fixN unifyN : Mesh → Except String Mesh)
    (orient : Mesh → Except String (Option Mesh))
    (cleanup : Mesh → Except String Mesh) (m0 m1 m2 : Mesh)
    (e1 e2 e3 e4 : String) :
    (fixN m0 = Except.error e1 → unifyN m0 = Except.error e2 →
      orient m0 = Except.error e3 → cleanup m0 = Except.error e4 →
      fixFaceOrientationSafe fixN unifyN orient cleanup m0 = m0) ∧
    (fixN m0 = Except.ok m1 → unifyN m1 = Except.ok m2 →
      orient m2 = Except.error e3 → cleanup m2 = Except.error e4 →
      fixFaceOrientationSafe fixN unifyN orient cleanup m0 = m2) ∧
    (∀ d, fixN m0 = Except.ok m1 → unifyN m1 = Except.ok m2 →
      orient m2 = Except.ok (some d) →
      fixFaceOrientationSafe fixN unifyN orient cleanup m0 = d) ∧
    (∀ m3, fixN m0 = Except.ok m1 → unifyN m1 = Except.ok m2 →
      orient m2 = Except.ok none → cleanup m2 = Except.ok m3 →
      fixFaceOrientationSafe fixN unifyN orient cleanup m0 = m3) := by
  refine ⟨fun h1 h2 h3 h4 => ?_, fun h1 h2 h3 h4 => ?_,
    fun d h1 h2 h3 => ?_, fun m3 h1 h2 h3 h4 => ?_⟩
  · simp only [fixFaceOrientationSafe, bestEffort, h1, h2, h3, h4]
  · simp only [fixFaceOrientationSafe, bestEffort, h1, h2, h3, h4]
  · simp only [fixFaceOrientationSafe, bestEffort, h1, h2, h3]
  · simp only [fixFaceOrientationSafe, bestEffort, h1, h2, h3, h4]

/-- C9, witness: with every internal stage raising, the input mesh comes
back unchanged. -/
theorem C9_orientation_never_raises_witness :
    fixFaceOrientationSafe (fun _ => Except.error "a") (fun _ => Except.error "b")
      (fun _ => Except.error "c") (fun _ => Except.error "d") sampleTriangle =
      sampleTriangle :=
  (C9_orientation_never_raises (fun _ => Except.error "a")
    (fun _ => Except.error "b") (fun _ => Except.error "c")
    (fun _ => Except.error "d") sampleTriangle sampleTriangle sampleTriangle
    "a" "b" "c" "d").1 rfl rfl rfl rfl

/-- C10: any smoothing level outside light/medium/high/ultra behaves
exactly like "medium" and fails nothing: Poisson depth defaults to 9, the
reconstruction's extra Laplacian pass is skipped (0 iterations, as for
medium), and basic smoothing defaults to 2 iterations. -/
theorem C10_unknown_level_is_medium (level : String)
    (h : level ∉ SMOOTHING_LEVELS) :
    poissonDepth level = 9 ∧ smoothIterations level = 2 ∧
    poissonExtraIterations level = 0 ∧
    poissonDepth level = poissonDepth "medium" ∧
    smoothIterations level = smoothIterations "medium" ∧
    poissonExtraIterations level = poissonExtraIterations "medium" := by
  simp only [SMOOTHING_LEVELS, List.mem_cons, List.not_mem_nil, or_false,
    not_or] at h
  obtain ⟨hl, hm, hh, hu⟩ := h
  have bl : (level == "light") = false := beq_eq_false_iff_ne.mpr hl
  have bm : (level == "medium") = false := beq_eq_false_iff_ne.mpr hm
  have bh : (level == "high") = false := beq_eq_false_iff_ne.mpr hh
  have bu : (level == "ultra") = false := beq_eq_false_iff_ne.mpr hu
  have hdep : poissonDepth level = 9 := by
    simp [poissonDepth, depth_map, List.lookup, bl, bm, bh, bu]
  have hit : smoothIterations level = 2 := by
    simp [smoothIterations, iterations_map, List.lookup, bl, bm, bh, bu]
  have hex : poissonExtraIterations level = 0 := by
    simp [poissonExtraIterations, hh, hu]
  exact ⟨hdep, hit, hex, hdep, hit, hex⟩

/-- C10, witness: the unrecognized level `"extreme"` gets depth 9 and 2
basic-smoothing iterations, exactly like "medium". -/
theorem C10_unknown_level_is_medium_witness :
    poissonDepth "extreme" = 9 ∧ smoothIterations "extreme" = 2 ∧
    poissonExtraIterations "extreme" = 0 ∧
    poissonDepth "extreme" = poissonDepth "medium" ∧
    smoothIterations "extreme" = smoothIterations "medium" ∧
    poissonExtraIterations "extreme" = poissonExtraIterations "medium" :=
  C10_unknown_level_is_medium "extreme" (by decide)

end PLYConv
